import Mathlib

/-!
Verification development for the Turkey Audio Tours backend
(Node/Express + PostgreSQL). The JavaScript route handlers and middleware
are shallowly embedded as pure Lean functions over explicit store states:
the database tables become lists of records, a handler becomes a function
from (state, request) to (response, state), and the external collaborators
(the `jsonwebtoken` and `bcryptjs` libraries, the SQL engine's aggregate
and upsert semantics) are modelled as idealized pure functions following
the specification of those collaborators.
-/

namespace AudioTours

/-- JWT claims payload signed by `generateToken` (routes/auth.js):
`{ id, email, is_premium, subscription_type }`. -/
structure Claims where
  id : Nat
  email : String
  is_premium : Bool
  subscription_type : String
deriving DecidableEq

/-- Modelled from the spec: an idealized signed token of the external
`jsonwebtoken` library. The token transparently carries its payload, its
expiry timestamp (seconds) and the secret it was signed with; a signature
that "does not verify" is modelled as a mismatch between the recorded
signing secret and the verification secret. -/
structure Token where
  payload : Claims
  exp : Nat
  secret : String
deriving DecidableEq

/-- Error kinds of `jsonwebtoken`'s verify callback, as discriminated by
`err.name` in middleware/auth.js: `TokenExpiredError`, `JsonWebTokenError`,
or any other failure. -/
inductive JwtError where
  | tokenExpired
  | jsonWebToken
  | other
deriving DecidableEq

/-- Seconds in the `expiresIn: '7d'` window used by `generateToken`. -/
def sevenDays : Nat := 7 * 24 * 60 * 60

/-- `generateToken` (routes/auth.js lines 24-35): `jwt.sign` over
`{ id, email, is_premium, subscription_type }` with `expiresIn: '7d'`. -/
def generateToken (user : Claims) (secret : String) (now : Nat) : Token :=
  { payload := user, exp := now + sevenDays, secret := secret }

/-- Modelled from the spec: `jwt.verify` of the external `jsonwebtoken`
library. The signature is checked before the expiry claim, so a tampered
token reports `JsonWebTokenError` even if it is also past expiry; a
well-signed token reports `TokenExpiredError` exactly when the clock has
reached its expiry timestamp. -/
def jwtVerify (t : Token) (secret : String) (now : Nat) : Except JwtError Claims :=
  if t.secret ≠ secret then .error .jsonWebToken
  else if t.exp ≤ now then .error .tokenExpired
  else .ok t.payload

/-- A JSON error envelope together with the HTTP status it is sent with. -/
structure ErrResponse where
  status : Nat
  success : Bool
  error : String
  message : String
deriving DecidableEq

/-- Outcome of the authentication middleware: either the request proceeds
with the verified claims attached as `req.user`, or it is rejected with a
status and error envelope. -/
inductive AuthOutcome where
  | proceed (user : Claims)
  | reject (resp : ErrResponse)
deriving DecidableEq

/-- The rejection sent when no bearer token is present. -/
def missingTokenResp : ErrResponse :=
  { status := 401, success := false, error := "Access token required",
    message := "Please provide a valid access token" }

/-- The rejection sent on `TokenExpiredError`. -/
def expiredTokenResp : ErrResponse :=
  { status := 401, success := false, error := "Token expired",
    message := "Your session has expired. Please login again." }

/-- The rejection sent on `JsonWebTokenError`. -/
def invalidTokenResp : ErrResponse :=
  { status := 403, success := false, error := "Invalid token",
    message := "The provided token is invalid" }

/-- The rejection sent on any other verification failure. -/
def verifyFailedResp : ErrResponse :=
  { status := 403, success := false, error := "Token verification failed",
    message := "Unable to verify the provided token" }

/-- The error-dispatch of `authenticateToken` (middleware/auth.js lines
16-44): branch on the verify result, mapping `TokenExpiredError` to 401,
`JsonWebTokenError` to 403, any other error to a distinct 403, and success
to attaching the claims to the request. -/
def handleVerify (r : Except JwtError Claims) : AuthOutcome :=
  match r with
  | .error .tokenExpired => .reject expiredTokenResp
  | .error .jsonWebToken => .reject invalidTokenResp
  | .error .other => .reject verifyFailedResp
  | .ok user => .proceed user

/-- `authenticateToken` (middleware/auth.js lines 4-46). The extraction of
the token from the `Authorization: Bearer <token>` header is modelled as an
`Option Token`: `none` when the header is absent or carries no token. -/
def authenticateToken (token : Option Token) (secret : String) (now : Nat) : AuthOutcome :=
  match token with
  | none => .reject missingTokenResp
  | some t => handleVerify (jwtVerify t secret now)

/-- Modelled from the spec: the external `bcryptjs` hash, idealized as an
injective tagged function of the password (the spec requires only a salted
adaptive hash whose verification recovers membership). -/
def bcryptHash (password : String) : String :=
  String.append "bcrypt12$" password

/-- Modelled from the spec: `bcrypt.compare` succeeds exactly when the
submitted password re-hashes to the stored hash. -/
def bcryptCompare (password hash : String) : Bool :=
  bcryptHash password == hash

/-- Modelled from the spec: the external express-validator `isEmail` check,
abstracted as containing an at-sign; registration and login claims depend
only on a request being valid, not on which strings count as emails. -/
def validEmail (s : String) : Bool :=
  s.data.contains '@'

/-- A row of the `users` table (database/db.js): the columns the auth
handlers read and write. -/
structure UserRow where
  id : Nat
  email : String
  password_hash : String
  first_name : String
  last_name : String
  is_premium : Bool
  subscription_type : String
deriving DecidableEq

/-- The `users` table with its `SERIAL` id counter. -/
structure UsersTable where
  rows : List UserRow
  nextId : Nat
deriving DecidableEq

/-- Body of `POST /api/auth/register`; absent optional names arrive as `""`
via the handler's destructuring defaults. -/
structure RegisterReq where
  email : String
  password : String
  first_name : String
  last_name : String
deriving DecidableEq

/-- `validateRegistration` (routes/auth.js lines 11-16): normalized email
must be an email and the password at least 6 characters. -/
def validRegistration (r : RegisterReq) : Bool :=
  validEmail r.email && 6 ≤ r.password.length

/-- The 409 envelope of the register handler (routes/auth.js lines 54-58). -/
def userExistsResp : ErrResponse :=
  { status := 409, success := false, error := "User already exists",
    message := "An account with this email already exists" }

/-- Result of `POST /api/auth/register`. -/
inductive RegisterResult where
  | validationFailed
  | conflict (resp : ErrResponse)
  | created (user : UserRow) (token : Token)
deriving DecidableEq

/-- HTTP status of a register result (400 / 409 / 201). -/
def RegisterResult.status : RegisterResult → Nat
  | .validationFailed => 400
  | .conflict _ => 409
  | .created _ _ => 201

/-- `POST /api/auth/register` (routes/auth.js lines 38-99): validate,
reject a duplicate email with 409, otherwise insert the user with the
schema defaults `is_premium = false`, `subscription_type = 'free'` and
issue a token over the inserted row. -/
def register (db : UsersTable) (r : RegisterReq) (secret : String) (now : Nat) :
    RegisterResult × UsersTable :=
  if ¬ validRegistration r then (.validationFailed, db)
  else if db.rows.any (fun u => u.email == r.email) then (.conflict userExistsResp, db)
  else
    let u : UserRow :=
      { id := db.nextId, email := r.email, password_hash := bcryptHash r.password,
        first_name := r.first_name, last_name := r.last_name,
        is_premium := false, subscription_type := "free" }
    let token := generateToken
      { id := u.id, email := u.email, is_premium := u.is_premium,
        subscription_type := u.subscription_type } secret now
    (.created u token, { rows := db.rows ++ [u], nextId := db.nextId + 1 })

/-- Body of `POST /api/auth/login`. -/
structure LoginReq where
  email : String
  password : String
deriving DecidableEq

/-- `validateLogin` (routes/auth.js lines 18-21): email format plus a
non-empty password. -/
def validLogin (r : LoginReq) : Bool :=
  validEmail r.email && r.password != ""

/-- The 401 envelope returned when no user row holds the submitted email
(routes/auth.js lines 122-128). -/
def invalidCredsNoUserResp : ErrResponse :=
  { status := 401, success := false, error := "Invalid credentials",
    message := "Email or password is incorrect" }

/-- The 401 envelope returned when the submitted password does not verify
against the stored hash (routes/auth.js lines 134-140). -/
def invalidCredsBadPasswordResp : ErrResponse :=
  { status := 401, success := false, error := "Invalid credentials",
    message := "Email or password is incorrect" }

/-- Result of `POST /api/auth/login`. -/
inductive LoginResult where
  | validationFailed
  | failure (resp : ErrResponse)
  | ok (user : UserRow) (token : Token)
deriving DecidableEq

/-- `POST /api/auth/login` (routes/auth.js lines 102-168): find the row by
email, verify the password against the stored hash, and on success issue a
fresh token; each failure branch returns its own literal envelope. -/
def login (db : UsersTable) (r : LoginReq) (secret : String) (now : Nat) : LoginResult :=
  if ¬ validLogin r then .validationFailed
  else
    match db.rows.find? (fun u => u.email == r.email) with
    | none => .failure invalidCredsNoUserResp
    | some user =>
      if ¬ bcryptCompare r.password user.password_hash then
        .failure invalidCredsBadPasswordResp
      else
        .ok user (generateToken
          { id := user.id, email := user.email, is_premium := user.is_premium,
            subscription_type := user.subscription_type } secret now)

/-- A row of the `locations` table (database/db.js), restricted to the
columns the verified handlers read: id, name, category, rating (a
`DECIMAL(2,1)`, embedded as ℚ), listeners, the premium flag and the
creation timestamp used for ordering. -/
structure Location where
  id : Nat
  name : String
  category : String
  rating : ℚ
  listeners : Nat
  is_premium : Bool
  created_at : Nat
deriving DecidableEq

/-- A row of the `user_favorites` relation. -/
structure Fav where
  user_id : Nat
  location_id : Nat
deriving DecidableEq

/-- A row of the `user_progress` relation. -/
structure ProgressRow where
  user_id : Nat
  location_id : Nat
  progress_percentage : Nat
  completed : Bool
  last_position : Nat
  updated_at : Nat
deriving DecidableEq

/-- The store the `/api/users/*` handlers touch: the `locations` table
(existence checks), `user_favorites` and `user_progress`. -/
structure Store where
  locations : List Location
  favorites : List Fav
  progress : List ProgressRow
deriving DecidableEq

/-- The `SELECT id FROM locations WHERE id = $1` existence check. -/
def locationExists (s : Store) (locId : Nat) : Bool :=
  s.locations.any (fun l => l.id == locId)

/-- The `(user_id, location_id)` key of the favorites relation. -/
def favKey (userId locId : Nat) (f : Fav) : Bool :=
  f.user_id == userId && f.location_id == locId

/-- Result of `POST /api/users/favorites/:locationId`. -/
inductive FavAddResult where
  | validationFailed
  | locationNotFound
  | alreadyFavorited
  | added
deriving DecidableEq

/-- HTTP status of a favorite-add result (400 / 404 / 409 / 201). -/
def FavAddResult.status : FavAddResult → Nat
  | .validationFailed => 400
  | .locationNotFound => 404
  | .alreadyFavorited => 409
  | .added => 201

/-- `POST /api/users/favorites/:locationId` (routes/users.js lines 37-92):
validate the id, 404 when the location row is absent, 409 when the pair is
already favorited, otherwise insert the pair. -/
def addFavorite (s : Store) (userId locId : Nat) : FavAddResult × Store :=
  if locId < 1 then (.validationFailed, s)
  else if ¬ locationExists s locId then (.locationNotFound, s)
  else if s.favorites.any (favKey userId locId) then (.alreadyFavorited, s)
  else (.added, { s with favorites := s.favorites ++ [{ user_id := userId, location_id := locId }] })

/-- Result of `DELETE /api/users/favorites/:locationId`. -/
inductive FavRemoveResult where
  | validationFailed
  | favoriteNotFound
  | removed
deriving DecidableEq

/-- HTTP status of a favorite-remove result (400 / 404 / 200). -/
def FavRemoveResult.status : FavRemoveResult → Nat
  | .validationFailed => 400
  | .favoriteNotFound => 404
  | .removed => 200

/-- `DELETE /api/users/favorites/:locationId` (routes/users.js lines
95-134): run the keyed DELETE; when its affected-row count is zero (the
remaining rows are as many as before) answer 404, else 200. -/
def removeFavorite (s : Store) (userId locId : Nat) : FavRemoveResult × Store :=
  if locId < 1 then (.validationFailed, s)
  else
    let remaining := s.favorites.filter (fun f => ! favKey userId locId f)
    if remaining.length == s.favorites.length then (.favoriteNotFound, s)
    else (.removed, { s with favorites := remaining })

/-- Body of `PUT /api/users/progress/:locationId`; `completed` and
`last_position` are optional in the request. -/
structure ProgressBody where
  progress_percentage : Nat
  completed : Option Bool
  last_position : Option Nat
deriving DecidableEq

/-- The `(user_id, location_id)` key of the progress relation. -/
def progressKey (userId locId : Nat) (r : ProgressRow) : Bool :=
  r.user_id == userId && r.location_id == locId

/-- The `INSERT ... ON CONFLICT (user_id, location_id) DO UPDATE` of the
progress handler. The schema's `UNIQUE(user_id, location_id)` constraint
admits at most one conflicting row, which the update replaces wholesale in
the modelled columns (percentage, completed, last_position, updated_at);
with no conflicting row the new row is appended. -/
def upsertProgress : List ProgressRow → ProgressRow → List ProgressRow
  | [], row => [row]
  | r :: rs, row =>
    if progressKey row.user_id row.location_id r then row :: rs
    else r :: upsertProgress rs row

/-- Result of `PUT /api/users/progress/:locationId`. -/
inductive ProgressResult where
  | validationFailed
  | locationNotFound
  | updated (row : ProgressRow)
deriving DecidableEq

/-- The row the progress handler submits to the upsert: the body's
destructuring defaults `completed = false`, `last_position = 0` applied,
with `updated_at` refreshed to the present write time. -/
def progressRowOf (userId locId : Nat) (b : ProgressBody) (now : Nat) : ProgressRow :=
  { user_id := userId, location_id := locId,
    progress_percentage := b.progress_percentage,
    completed := b.completed.getD false,
    last_position := b.last_position.getD 0,
    updated_at := now }

/-- `PUT /api/users/progress/:locationId` (routes/users.js lines 164-218):
validate (id ≥ 1, percentage ≤ 100), 404 when the location is absent, then
destructure the body with defaults and perform the atomic upsert. -/
def updateProgress (s : Store) (userId locId : Nat) (b : ProgressBody) (now : Nat) :
    ProgressResult × Store :=
  if locId < 1 || 100 < b.progress_percentage then (.validationFailed, s)
  else if ¬ locationExists s locId then (.locationNotFound, s)
  else
    let row := progressRowOf userId locId b now
    (.updated row, { s with progress := upsertProgress s.progress row })

/-- Forget the refreshed `updated_at` column of a progress row. -/
def ProgressRow.eraseTime (r : ProgressRow) : ProgressRow :=
  { r with updated_at := 0 }

/-- Forget the `updated_at` column across the relation. -/
def eraseTimes (rows : List ProgressRow) : List ProgressRow :=
  rows.map ProgressRow.eraseTime

/-- The uniqueness invariant of `UNIQUE(user_id, location_id)`: no two
rows of the progress relation share a key. -/
def uniqueProgressKeys (rows : List ProgressRow) : Prop :=
  rows.Pairwise (fun a b => ¬ (a.user_id = b.user_id ∧ a.location_id = b.location_id))

/-- A sequence of progress writes, each `(userId, locId, body, now)`,
applied in order. -/
def runProgressWrites (s : Store) (ws : List (Nat × Nat × ProgressBody × Nat)) : Store :=
  ws.foldl (fun st w => (updateProgress st w.1 w.2.1 w.2.2.1 w.2.2.2).2) s

/-- Query string of `GET /api/locations`; each filter is absent (`none`)
or carries the raw string value Express parsed from the URL. -/
structure ListQuery where
  category : Option String
  is_premium : Option String
  limit : Nat
  offset : Nat
deriving DecidableEq

/-- `ORDER BY created_at DESC`: newer rows first. -/
def createdAtDesc (a b : Location) : Prop :=
  b.created_at ≤ a.created_at

instance : DecidableRel createdAtDesc :=
  fun a b => Nat.decLe b.created_at a.created_at

instance : IsTotal Location createdAtDesc :=
  ⟨fun a b => Nat.le_total b.created_at a.created_at⟩

instance : IsTrans Location createdAtDesc :=
  ⟨fun _ _ _ hab hbc => Nat.le_trans hbc hab⟩

/-- `GET /api/locations` (routes/locations.js lines 372-418): the category
filter fires only on a truthy (non-empty) value; the premium filter fires
whenever the parameter is present, comparing the flag with the strict
string equality `is_premium === 'true'`; then order by creation time
descending and apply `LIMIT`/`OFFSET`. -/
def getLocations (locs : List Location) (q : ListQuery) : List Location :=
  let afterCategory :=
    match q.category with
    | none => locs
    | some c => if c != "" then locs.filter (fun l => l.category == c) else locs
  let afterPremium :=
    match q.is_premium with
    | none => afterCategory
    | some v => afterCategory.filter (fun l => l.is_premium == (v == "true"))
  ((List.insertionSort createdAtDesc afterPremium).drop q.offset).take q.limit

/-- `ORDER BY count DESC` on the category distribution. -/
def countGe (a b : String × Nat) : Prop :=
  b.2 ≤ a.2

instance : DecidableRel countGe :=
  fun a b => Nat.decLe b.2 a.2

instance : IsTotal (String × Nat) countGe :=
  ⟨fun a b => Nat.le_total b.2 a.2⟩

instance : IsTrans (String × Nat) countGe :=
  ⟨fun _ _ _ hab hbc => Nat.le_trans hbc hab⟩

/-- `SELECT category, COUNT(*) FROM locations GROUP BY category ORDER BY
count DESC`: one pair per distinct category, ordered by count. -/
def categoryCounts (locs : List Location) : List (String × Nat) :=
  List.insertionSort countGe
    (((locs.map (fun l => l.category)).dedup).map
      (fun c => (c, (locs.filter (fun l => l.category == c)).length)))

/-- The payload of `GET /api/locations/stats/overview`. The handler
formats `average_rating` with `toFixed(1)`; the embedded value is the
exact SQL `AVG` it formats. -/
structure StatsOverview where
  total_locations : Nat
  premium_locations : Nat
  free_locations : Nat
  average_rating : ℚ
  categories : List (String × Nat)
deriving DecidableEq

/-- `GET /api/locations/stats/overview` (routes/locations.js lines
616-646): total count, premium count, free = total − premium, category
distribution, and `AVG(rating)` over the rows `WHERE rating > 0` (an empty
aggregate is `NULL`, which `|| 0` turns into `0`). -/
def statsOverview (locs : List Location) : StatsOverview :=
  let total := locs.length
  let premium := (locs.filter (fun l => l.is_premium)).length
  let rated := locs.filter (fun l => decide (0 < l.rating))
  { total_locations := total,
    premium_locations := premium,
    free_locations := total - premium,
    average_rating :=
      if rated.length = 0 then 0
      else (rated.map (fun l => l.rating)).sum / (rated.length : ℚ),
    categories := categoryCounts locs }

/-- One segment of an Express route pattern: a literal or a `:name`
capture (a capture matches exactly one path segment). -/
inductive Seg where
  | lit (s : String)
  | cap (name : String)
deriving DecidableEq

/-- A route of the locations router: HTTP method, pattern and a tag naming
its handler. -/
structure Route where
  method : String
  pattern : List Seg
  handler : String
deriving DecidableEq

/-- The locations router's routes in their registration order
(routes/locations.js): list, get-by-id, create, update, delete, then the
stats overview. -/
def locationsRoutes : List Route :=
  [ { method := "GET", pattern := [], handler := "listLocations" },
    { method := "GET", pattern := [.cap "id"], handler := "getLocationById" },
    { method := "POST", pattern := [], handler := "createLocation" },
    { method := "PUT", pattern := [.cap "id"], handler := "updateLocation" },
    { method := "DELETE", pattern := [.cap "id"], handler := "deleteLocation" },
    { method := "GET", pattern := [.lit "stats", .lit "overview"], handler := "statsOverview" } ]

/-- Whether a pattern matches a path, segment by segment. -/
def matchSegs : List Seg → List String → Bool
  | [], [] => true
  | .lit s :: ps, x :: xs => s == x && matchSegs ps xs
  | .cap _ :: ps, _ :: xs => matchSegs ps xs
  | _, _ => false

/-- Express dispatch: the first registered route whose method and pattern
match handles the request. -/
def dispatch (routes : List Route) (method : String) (path : List String) : Option String :=
  (routes.find? (fun r => r.method == method && matchSegs r.pattern path)).map
    (fun r => r.handler)

/-! ## Theorems -/

/-- Sample claims record used by concrete witnesses. -/
def sampleClaims : Claims :=
  { id := 1, email := "a@x.com", is_premium := false, subscription_type := "free" }

/-- Claim C1: verifying a token produced by `generateToken` at any time
before its 7-day expiry succeeds and attaches to the request exactly the
claims that were signed — same id, email, is_premium, subscription_type. -/
theorem token_roundtrip (claims : Claims) (secret : String) (issuedAt now : Nat)
    (h : now < issuedAt + sevenDays) :
    authenticateToken (some (generateToken claims secret issuedAt)) secret now =
      .proceed claims := by
  unfold authenticateToken generateToken jwtVerify handleVerify
  simp [Nat.not_le.mpr h]

/-- Witness for C1 at concrete inputs. -/
theorem token_roundtrip_witness :
    3 < 0 + sevenDays ∧
    authenticateToken (some (generateToken sampleClaims "s" 0)) "s" 3 =
      .proceed sampleClaims :=
  ⟨by decide, token_roundtrip sampleClaims "s" 0 3 (by decide)⟩

/-- Claim C2: a validly signed but expired token is rejected with 401 and
the expired-token envelope; a token whose signature does not verify is
rejected with 403 and the invalid-token envelope regardless of expiry; any
other verification failure is rejected with 403 and a third envelope
distinct from both. -/
theorem token_failure_three_way :
    (∀ (t : Token) (secret : String) (now : Nat),
        t.secret = secret → t.exp ≤ now →
        authenticateToken (some t) secret now = .reject expiredTokenResp) ∧
    (∀ (t : Token) (secret : String) (now : Nat),
        t.secret ≠ secret →
        authenticateToken (some t) secret now = .reject invalidTokenResp) ∧
    handleVerify (.error .other) = .reject verifyFailedResp ∧
    expiredTokenResp.status = 401 ∧ invalidTokenResp.status = 403 ∧
    verifyFailedResp.status = 403 ∧
    expiredTokenResp ≠ invalidTokenResp ∧ verifyFailedResp ≠ invalidTokenResp ∧
    verifyFailedResp ≠ expiredTokenResp := by
  refine ⟨?_, ?_, rfl, rfl, rfl, rfl, by decide, by decide, by decide⟩
  · intro t secret now hsec hexp
    unfold authenticateToken jwtVerify handleVerify
    simp [hsec, hexp]
  · intro t secret now hne
    unfold authenticateToken jwtVerify handleVerify
    simp [hne]

/-- Witness for C2 at concrete tokens: one well-signed past expiry, one
wrongly signed. -/
theorem token_failure_three_way_witness :
    authenticateToken (some { payload := sampleClaims, exp := 5, secret := "s" }) "s" 10 =
      .reject expiredTokenResp ∧
    authenticateToken (some { payload := sampleClaims, exp := 99, secret := "x" }) "s" 10 =
      .reject invalidTokenResp :=
  ⟨token_failure_three_way.1 { payload := sampleClaims, exp := 5, secret := "s" } "s" 10
      rfl (by decide),
   token_failure_three_way.2.1 { payload := sampleClaims, exp := 99, secret := "x" } "s" 10
      (by decide)⟩

/-- Claim C3: for two otherwise-valid registrations sharing a normalized
email, against a store with no row holding that email, the first yields
201, the second the 409 conflict envelope with the store unchanged, and
afterwards exactly one user row holds that email; order-independence is
the instantiation of the universally quantified pair in either order. -/
theorem duplicate_registration_exclusion
    (db : UsersTable) (r1 r2 : RegisterReq) (secret : String) (t1 t2 : Nat)
    (hemail : r1.email = r2.email)
    (hv1 : validRegistration r1 = true) (hv2 : validRegistration r2 = true)
    (hfresh : ∀ u ∈ db.rows, u.email ≠ r1.email) :
    (register db r1 secret t1).1.status = 201 ∧
    (register (register db r1 secret t1).2 r2 secret t2).1 = .conflict userExistsResp ∧
    (register (register db r1 secret t1).2 r2 secret t2).2 = (register db r1 secret t1).2 ∧
    ((register (register db r1 secret t1).2 r2 secret t2).2.rows.filter
        (fun u => u.email == r1.email)).length = 1 := by
  have hany : (db.rows.any (fun u => u.email == r1.email)) = false := by
    simp only [List.any_eq_false]
    intro u hu
    simpa using hfresh u hu
  have hany2 : (db.rows.any (fun u => u.email == r2.email)) = false := by
    rw [← hemail]; exact hany
  have hfil : db.rows.filter (fun u => u.email == r1.email) = [] := by
    rw [List.filter_eq_nil_iff]
    intro u hu
    simpa using hfresh u hu
  have hfresh2 : ∀ u ∈ db.rows, ¬ u.email = r2.email := fun u hu => hemail ▸ hfresh u hu
  simp [register, hv1, hv2, hany, hany2, RegisterResult.status, List.any_append,
    List.filter_append, hfil, hemail]
  exact hfresh2

/-- Witness for C3: the empty store and two concrete registrations with
the same email. -/
theorem duplicate_registration_exclusion_witness :
    (register { rows := [], nextId := 1 }
        { email := "a@x.com", password := "secret1", first_name := "", last_name := "" }
        "s" 0).1.status = 201 ∧
    (register (register { rows := [], nextId := 1 }
        { email := "a@x.com", password := "secret1", first_name := "", last_name := "" }
        "s" 0).2
        { email := "a@x.com", password := "secret2", first_name := "", last_name := "" }
        "s" 1).1 = .conflict userExistsResp ∧
    (register (register { rows := [], nextId := 1 }
        { email := "a@x.com", password := "secret1", first_name := "", last_name := "" }
        "s" 0).2
        { email := "a@x.com", password := "secret2", first_name := "", last_name := "" }
        "s" 1).2 = (register { rows := [], nextId := 1 }
        { email := "a@x.com", password := "secret1", first_name := "", last_name := "" }
        "s" 0).2 ∧
    ((register (register { rows := [], nextId := 1 }
        { email := "a@x.com", password := "secret1", first_name := "", last_name := "" }
        "s" 0).2
        { email := "a@x.com", password := "secret2", first_name := "", last_name := "" }
        "s" 1).2.rows.filter (fun u => u.email == "a@x.com")).length = 1 :=
  duplicate_registration_exclusion { rows := [], nextId := 1 }
    { email := "a@x.com", password := "secret1", first_name := "", last_name := "" }
    { email := "a@x.com", password := "secret2", first_name := "", last_name := "" }
    "s" 0 1 rfl (by decide) (by decide) (by intro u hu; simp at hu)

/-- Claim C4: a login that fails because no user row holds the submitted
email and a login that fails because the password does not verify against
the stored hash produce the same 401 envelope — identical status, error
and message fields. -/
theorem login_non_leakage :
    (∀ (db : UsersTable) (r : LoginReq) (secret : String) (now : Nat),
        validLogin r = true →
        db.rows.find? (fun u => u.email == r.email) = none →
        login db r secret now = .failure invalidCredsNoUserResp) ∧
    (∀ (db : UsersTable) (r : LoginReq) (secret : String) (now : Nat) (u : UserRow),
        validLogin r = true →
        db.rows.find? (fun v => v.email == r.email) = some u →
        bcryptCompare r.password u.password_hash = false →
        login db r secret now = .failure invalidCredsBadPasswordResp) ∧
    invalidCredsNoUserResp = invalidCredsBadPasswordResp ∧
    invalidCredsNoUserResp.status = 401 := by
  refine ⟨?_, ?_, rfl, rfl⟩
  · intro db r secret now hv hf
    simp [login, hv, hf]
  · intro db r secret now u hv hf hc
    simp [login, hv, hf, hc]

/-- A stored user row used by the login witnesses. -/
def sampleUser : UserRow :=
  { id := 1, email := "a@x.com", password_hash := bcryptHash "secret1",
    first_name := "", last_name := "", is_premium := false, subscription_type := "free" }

/-- Witness for C4: an unknown email against the empty store, and a wrong
password against a store holding `sampleUser`. -/
theorem login_non_leakage_witness :
    login { rows := [], nextId := 1 } { email := "a@x.com", password := "pw" } "s" 0 =
      .failure invalidCredsNoUserResp ∧
    login { rows := [sampleUser], nextId := 2 } { email := "a@x.com", password := "wrong" } "s" 0 =
      .failure invalidCredsBadPasswordResp :=
  ⟨login_non_leakage.1 { rows := [], nextId := 1 } { email := "a@x.com", password := "pw" }
      "s" 0 (by decide) rfl,
   login_non_leakage.2.1 { rows := [sampleUser], nextId := 2 }
      { email := "a@x.com", password := "wrong" } "s" 0 sampleUser (by decide) rfl (by decide)⟩

/-- Unfolding lemma for the upsert on a non-empty relation. -/
lemma upsertProgress_cons (r : ProgressRow) (rs : List ProgressRow) (row : ProgressRow) :
    upsertProgress (r :: rs) row =
      if progressKey row.user_id row.location_id r then row :: rs
      else r :: upsertProgress rs row := rfl

/-- Membership after an upsert comes from the old rows or is the new row. -/
lemma mem_upsertProgress {rows : List ProgressRow} {row x : ProgressRow}
    (hx : x ∈ upsertProgress rows row) : x ∈ rows ∨ x = row := by
  induction rows with
  | nil => simpa [upsertProgress] using hx
  | cons r rs ih =>
    by_cases hk : progressKey row.user_id row.location_id r = true
    · rw [upsertProgress_cons, if_pos hk] at hx
      rcases List.mem_cons.mp hx with h | h
      · exact Or.inr h
      · exact Or.inl (List.mem_cons_of_mem r h)
    · rw [upsertProgress_cons, if_neg hk] at hx
      rcases List.mem_cons.mp hx with h | h
      · exact Or.inl (h ▸ List.mem_cons_self r rs)
      · rcases ih h with h2 | h2
        · exact Or.inl (List.mem_cons_of_mem r h2)
        · exact Or.inr h2

/-- The upsert preserves the `UNIQUE(user_id, location_id)` invariant. -/
lemma uniqueProgressKeys_upsertProgress {rows : List ProgressRow} (row : ProgressRow)
    (h : uniqueProgressKeys rows) : uniqueProgressKeys (upsertProgress rows row) := by
  induction rows with
  | nil => simp [upsertProgress, uniqueProgressKeys]
  | cons r rs ih =>
    rw [uniqueProgressKeys, List.pairwise_cons] at h
    by_cases hk : progressKey row.user_id row.location_id r = true
    · rw [upsertProgress_cons, if_pos hk]
      have hke : r.user_id = row.user_id ∧ r.location_id = row.location_id := by
        simpa [progressKey] using hk
      rw [uniqueProgressKeys, List.pairwise_cons]
      refine ⟨fun b hb hc => ?_, h.2⟩
      exact h.1 b hb ⟨hke.1.trans hc.1, hke.2.trans hc.2⟩
    · rw [upsertProgress_cons, if_neg hk]
      rw [uniqueProgressKeys, List.pairwise_cons]
      refine ⟨fun b hb hc => ?_, ih h.2⟩
      rcases mem_upsertProgress hb with hmem | hmem
      · exact h.1 b hmem hc
      · subst hmem
        exact hk (by simp [progressKey, hc.1, hc.2])

/-- After an upsert, looking the key up finds exactly the written row. -/
lemma find?_upsertProgress (rows : List ProgressRow) (row : ProgressRow) :
    (upsertProgress rows row).find? (progressKey row.user_id row.location_id) = some row := by
  induction rows with
  | nil =>
    rw [show upsertProgress [] row = [row] from rfl]
    rw [List.find?_cons_of_pos _ (by simp [progressKey])]
  | cons r rs ih =>
    by_cases hk : progressKey row.user_id row.location_id r = true
    · rw [upsertProgress_cons, if_pos hk]
      rw [List.find?_cons_of_pos _ (by simp [progressKey])]
    · rw [upsertProgress_cons, if_neg hk]
      rw [List.find?_cons_of_neg _ (by simpa using hk)]
      exact ih

/-- Under the uniqueness invariant, an upsert leaves exactly one row with
the written key. -/
lemma countP_upsertProgress (rows : List ProgressRow) (row : ProgressRow)
    (h : uniqueProgressKeys rows) :
    (upsertProgress rows row).countP (progressKey row.user_id row.location_id) = 1 := by
  induction rows with
  | nil =>
    rw [show upsertProgress [] row = [row] from rfl]
    simp [List.countP_cons, progressKey]
  | cons r rs ih =>
    rw [uniqueProgressKeys, List.pairwise_cons] at h
    by_cases hk : progressKey row.user_id row.location_id r = true
    · have hke : r.user_id = row.user_id ∧ r.location_id = row.location_id := by
        simpa [progressKey] using hk
      have hz : rs.countP (progressKey row.user_id row.location_id) = 0 := by
        rw [List.countP_eq_zero]
        intro b hb
        have hrb := h.1 b hb
        simp only [progressKey, Bool.and_eq_true, beq_iff_eq]
        intro hc
        exact hrb ⟨hke.1.trans hc.1.symm, hke.2.trans hc.2.symm⟩
      rw [upsertProgress_cons, if_pos hk, List.countP_cons]
      simp [progressKey, hz]
    · rw [upsertProgress_cons, if_neg hk, List.countP_cons, ih h.2]
      simp [Bool.eq_false_iff.mpr hk]

/-- With no conflicting row, the upsert is a plain insert. -/
lemma upsertProgress_of_no_conflict {rows : List ProgressRow} {row : ProgressRow}
    (h : rows.any (progressKey row.user_id row.location_id) = false) :
    upsertProgress rows row = rows ++ [row] := by
  induction rows with
  | nil => simp [upsertProgress]
  | cons r rs ih =>
    simp only [List.any_cons, Bool.or_eq_false_iff] at h
    rw [upsertProgress_cons, if_neg (by simp [h.1]), ih h.2, List.cons_append]

/-- With a conflicting row present, the upsert keeps the row count. -/
lemma length_upsertProgress_of_conflict {rows : List ProgressRow} {row : ProgressRow}
    (h : rows.any (progressKey row.user_id row.location_id) = true) :
    (upsertProgress rows row).length = rows.length := by
  induction rows with
  | nil => simp at h
  | cons r rs ih =>
    by_cases hk : progressKey row.user_id row.location_id r = true
    · rw [upsertProgress_cons, if_pos hk]
      simp
    · rw [upsertProgress_cons, if_neg hk]
      simp only [List.any_cons, Bool.or_eq_true] at h
      rcases h with h | h
      · exact absurd h hk
      · simp [ih h]

/-- Re-upserting the same payload at a later time changes nothing but the
`updated_at` column. -/
lemma upsertProgress_idem (rows : List ProgressRow) (row : ProgressRow) (t : Nat) :
    eraseTimes (upsertProgress (upsertProgress rows row) { row with updated_at := t }) =
      eraseTimes (upsertProgress rows row) := by
  induction rows with
  | nil =>
    rw [show upsertProgress [] row = [row] from rfl]
    rw [upsertProgress_cons, if_pos (by simp [progressKey])]
    simp [eraseTimes, ProgressRow.eraseTime]
  | cons r rs ih =>
    by_cases hk : progressKey row.user_id row.location_id r = true
    · rw [upsertProgress_cons, if_pos hk]
      rw [upsertProgress_cons, if_pos (by simp [progressKey])]
      simp [eraseTimes, ProgressRow.eraseTime]
    · rw [upsertProgress_cons, if_neg hk]
      rw [upsertProgress_cons, if_neg (by simpa [progressKey] using hk)]
      simp only [eraseTimes, List.map_cons] at ih ⊢
      rw [ih]

/-- On a valid request against an existing location the progress handler
reaches the upsert with the defaulted row. -/
lemma updateProgress_eq (s : Store) (userId locId : Nat) (b : ProgressBody) (t : Nat)
    (hid : 1 ≤ locId) (hpct : b.progress_percentage ≤ 100)
    (hloc : locationExists s locId = true) :
    updateProgress s userId locId b t =
      (.updated (progressRowOf userId locId b t),
        { s with progress := upsertProgress s.progress (progressRowOf userId locId b t) }) := by
  unfold updateProgress
  rw [if_neg (by simp; omega), if_neg (by simp [hloc])]

/-- One progress write preserves the uniqueness invariant, in every branch
of the handler. -/
lemma uniqueProgressKeys_updateProgress (s : Store) (userId locId : Nat) (b : ProgressBody)
    (t : Nat) (h : uniqueProgressKeys s.progress) :
    uniqueProgressKeys ((updateProgress s userId locId b t).2.progress) := by
  unfold updateProgress
  split
  · exact h
  · split
    · exact h
    · exact uniqueProgressKeys_upsertProgress _ h

/-- Any sequence of progress writes preserves the uniqueness invariant. -/
lemma uniqueProgressKeys_runProgressWrites (s : Store)
    (ws : List (Nat × Nat × ProgressBody × Nat)) (h : uniqueProgressKeys s.progress) :
    uniqueProgressKeys ((runProgressWrites s ws).progress) := by
  induction ws generalizing s with
  | nil => exact h
  | cons w ws ih =>
    simp only [runProgressWrites, List.foldl_cons]
    exact ih _ (uniqueProgressKeys_updateProgress _ _ _ _ _ h)

/-- Claim C5: a repeated progress write with the same payload leaves the
relation unchanged apart from the refreshed `updated_at`; after a write
exactly one row holds the `(user, location)` key; uniqueness of the key is
preserved by any sequence of writes; and each write is an insert (no
conflicting row) or an in-place replacement (conflicting row, same row
count), never a duplication. -/
theorem progress_upsert_idempotent_unique
    (s : Store) (userId locId : Nat) (b : ProgressBody) (t1 t2 : Nat)
    (hid : 1 ≤ locId) (hpct : b.progress_percentage ≤ 100)
    (hloc : locationExists s locId = true)
    (huniq : uniqueProgressKeys s.progress) :
    eraseTimes ((updateProgress (updateProgress s userId locId b t1).2
        userId locId b t2).2.progress) =
      eraseTimes ((updateProgress s userId locId b t1).2.progress) ∧
    ((updateProgress s userId locId b t1).2.progress.countP (progressKey userId locId)) = 1 ∧
    (∀ ws, uniqueProgressKeys ((runProgressWrites s ws).progress)) ∧
    (s.progress.any (progressKey userId locId) = false →
      (updateProgress s userId locId b t1).2.progress =
        s.progress ++ [progressRowOf userId locId b t1]) ∧
    (s.progress.any (progressKey userId locId) = true →
      (updateProgress s userId locId b t1).2.progress.length = s.progress.length) := by
  have e1 := updateProgress_eq s userId locId b t1 hid hpct hloc
  have hloc1 : locationExists
      { s with progress := upsertProgress s.progress (progressRowOf userId locId b t1) }
      locId = true := hloc
  have e2 := updateProgress_eq
    { s with progress := upsertProgress s.progress (progressRowOf userId locId b t1) }
    userId locId b t2 hid hpct hloc1
  refine ⟨?_, ?_, ?_, ?_, ?_⟩
  · rw [e1, e2]
    exact upsertProgress_idem s.progress (progressRowOf userId locId b t1) t2
  · rw [e1]
    exact countP_upsertProgress s.progress (progressRowOf userId locId b t1) huniq
  · intro ws
    exact uniqueProgressKeys_runProgressWrites s ws huniq
  · intro hno
    rw [e1]
    exact upsertProgress_of_no_conflict hno
  · intro hyes
    rw [e1]
    exact length_upsertProgress_of_conflict hyes

/-- A seeded location row used by concrete store witnesses. -/
def sampleLoc : Location :=
  { id := 5, name := "Hagia Sophia", category := "Architecture", rating := 0,
    listeners := 2100, is_premium := false, created_at := 1 }

/-- A store holding one location and no progress rows. -/
def sampleStore : Store :=
  { locations := [sampleLoc], favorites := [], progress := [] }

/-- A progress body with both optional fields supplied. -/
def sampleBody : ProgressBody :=
  { progress_percentage := 40, completed := some true, last_position := some 42 }

/-- Witness for C5 on a concrete store, location and payload. -/
theorem progress_upsert_idempotent_unique_witness :
    ((updateProgress sampleStore 9 5 sampleBody 10).2.progress.countP (progressKey 9 5)) = 1 ∧
    eraseTimes ((updateProgress (updateProgress sampleStore 9 5 sampleBody 10).2
        9 5 sampleBody 20).2.progress) =
      eraseTimes ((updateProgress sampleStore 9 5 sampleBody 10).2.progress) :=
  ⟨(progress_upsert_idempotent_unique sampleStore 9 5 sampleBody 10 20 (by decide) (by decide)
      (by decide) (by simp [sampleStore, uniqueProgressKeys])).2.1,
   (progress_upsert_idempotent_unique sampleStore 9 5 sampleBody 10 20 (by decide) (by decide)
      (by decide) (by simp [sampleStore, uniqueProgressKeys])).1⟩

/-- Claim C9 (implicit): a progress write whose body omits the optional
`completed` and `last_position` fields stores the request-side defaults
`false` and `0` on the (already existing) row, overwriting whatever values
were previously stored. -/
theorem progress_omitted_fields_reset
    (s : Store) (userId locId pct t : Nat) (r0 : ProgressRow)
    (hid : 1 ≤ locId) (hpct : pct ≤ 100)
    (hloc : locationExists s locId = true)
    (_hmem : r0 ∈ s.progress) (_hkey : progressKey userId locId r0 = true) :
    ((updateProgress s userId locId
        { progress_percentage := pct, completed := none, last_position := none }
        t).2.progress.find? (progressKey userId locId)) =
      some { user_id := userId, location_id := locId, progress_percentage := pct,
             completed := false, last_position := 0, updated_at := t } := by
  rw [updateProgress_eq s userId locId _ t hid hpct hloc]
  exact find?_upsertProgress s.progress
    (progressRowOf userId locId
      { progress_percentage := pct, completed := none, last_position := none } t)

/-- A stored progress row with `completed = true` and a non-zero position,
to be overwritten by the C9 witness. -/
def sampleStoredRow : ProgressRow :=
  { user_id := 9, location_id := 5, progress_percentage := 40, completed := true,
    last_position := 42, updated_at := 10 }

/-- A store holding one location and one progress row. -/
def sampleStore2 : Store :=
  { locations := [sampleLoc], favorites := [], progress := [sampleStoredRow] }

/-- Witness for C9: the stored row had `completed = true`,
`last_position = 42`; a write omitting both fields leaves `false` and `0`. -/
theorem progress_omitted_fields_reset_witness :
    ((updateProgress sampleStore2 9 5
        { progress_percentage := 70, completed := none, last_position := none }
        20).2.progress.find? (progressKey 9 5)) =
      some { user_id := 9, location_id := 5, progress_percentage := 70,
             completed := false, last_position := 0, updated_at := 20 } :=
  progress_omitted_fields_reset sampleStore2 9 5 70 20 sampleStoredRow (by decide) (by decide)
    (by decide) (by simp [sampleStore2]) (by decide)

/-- With no favorite under the key, the keyed DELETE keeps every row. -/
lemma filter_not_favKey_of_none {fs : List Fav} {userId locId : Nat}
    (h : fs.any (favKey userId locId) = false) :
    fs.filter (fun f => ! favKey userId locId f) = fs := by
  rw [List.filter_eq_self]
  intro f hf
  simp only [List.any_eq_false] at h
  simp [Bool.eq_false_iff.mpr (h f hf)]

/-- Claim C7: adding a favorite for an absent location yields 404; a
duplicate add yields 409 and leaves the store unchanged; removing an
absent favorite yields 404, not a silent success; and a fresh add succeeds,
its removal succeeds, and a second removal of the same pair yields 404. -/
theorem favorites_error_contract (s : Store) (userId locId : Nat) (hid : 1 ≤ locId) :
    (locationExists s locId = false → addFavorite s userId locId = (.locationNotFound, s)) ∧
    (locationExists s locId = true → s.favorites.any (favKey userId locId) = true →
      addFavorite s userId locId = (.alreadyFavorited, s)) ∧
    (s.favorites.any (favKey userId locId) = false →
      removeFavorite s userId locId = (.favoriteNotFound, s)) ∧
    (locationExists s locId = true → s.favorites.any (favKey userId locId) = false →
      (addFavorite s userId locId).1 = .added ∧
      (removeFavorite (addFavorite s userId locId).2 userId locId).1 = .removed ∧
      (removeFavorite (removeFavorite (addFavorite s userId locId).2 userId locId).2
          userId locId).1 = .favoriteNotFound) ∧
    FavAddResult.locationNotFound.status = 404 ∧
    FavAddResult.alreadyFavorited.status = 409 ∧
    FavAddResult.added.status = 201 ∧
    FavRemoveResult.favoriteNotFound.status = 404 ∧
    FavRemoveResult.removed.status = 200 := by
  have hnlt : ¬ locId < 1 := by omega
  refine ⟨?_, ?_, ?_, ?_, rfl, rfl, rfl, rfl, rfl⟩
  · intro h
    simp [addFavorite, hnlt, h]
  · intro h ha
    simp [addFavorite, hnlt, h, ha]
  · intro h
    simp [removeFavorite, hnlt, filter_not_favKey_of_none h]
  · intro h ha
    have e : addFavorite s userId locId =
        (.added, { s with favorites := s.favorites ++ [{ user_id := userId, location_id := locId }] }) := by
      simp [addFavorite, hnlt, h, ha]
    have hfil : (s.favorites ++ [({ user_id := userId, location_id := locId } : Fav)]).filter
        (fun f => ! favKey userId locId f) = s.favorites := by
      rw [List.filter_append, filter_not_favKey_of_none ha]
      simp [favKey]
    refine ⟨by rw [e], ?_, ?_⟩
    · rw [e]
      simp [removeFavorite, hnlt, hfil]
    · rw [e]
      have e2 : removeFavorite
          { s with favorites := s.favorites ++ [({ user_id := userId, location_id := locId } : Fav)] }
          userId locId =
          (.removed, { s with favorites := s.favorites }) := by
        simp [removeFavorite, hnlt, hfil]
      rw [e2]
      simp [removeFavorite, hnlt, filter_not_favKey_of_none ha]

/-- Witness for C7 at a concrete store: location 5 exists (the add/remove
cycle runs on it), location 77 does not. -/
theorem favorites_error_contract_witness :
    addFavorite sampleStore 9 77 = (.locationNotFound, sampleStore) ∧
    removeFavorite sampleStore 9 5 = (.favoriteNotFound, sampleStore) ∧
    (addFavorite sampleStore 9 5).1 = .added ∧
    (removeFavorite (addFavorite sampleStore 9 5).2 9 5).1 = .removed ∧
    (removeFavorite (removeFavorite (addFavorite sampleStore 9 5).2 9 5).2 9 5).1 =
      .favoriteNotFound :=
  ⟨(favorites_error_contract sampleStore 9 77 (by decide)).1 (by decide),
   (favorites_error_contract sampleStore 9 5 (by decide)).2.2.1 (by decide),
   ((favorites_error_contract sampleStore 9 5 (by decide)).2.2.2.1 (by decide) (by decide)).1,
   ((favorites_error_contract sampleStore 9 5 (by decide)).2.2.2.1 (by decide) (by decide)).2.1,
   ((favorites_error_contract sampleStore 9 5 (by decide)).2.2.2.1 (by decide) (by decide)).2.2⟩

/-- Four locations whose ratings are 0, 0, 4, 5: the two zero ratings are
the "unrated" sentinel and must not enter the average. -/
def zeroRatingDemo : List Location :=
  [ { id := 1, name := "a", category := "History", rating := 0, listeners := 0,
      is_premium := false, created_at := 1 },
    { id := 2, name := "b", category := "Nature", rating := 0, listeners := 0,
      is_premium := true, created_at := 2 },
    { id := 3, name := "c", category := "History", rating := 4, listeners := 0,
      is_premium := false, created_at := 3 },
    { id := 4, name := "d", category := "Culture", rating := 5, listeners := 0,
      is_premium := true, created_at := 4 } ]

/-- Claim C6: the overview reports the total count, the premium count,
free = total − premium, a per-category distribution in descending count
order covering exactly the stored categories, and an average rating over
the positively-rated rows only — zero-rated rows never move it; over
ratings `[0, 0, 4, 5]` the average is `9/2 = 4.5`, not `9/4 = 2.25`. -/
theorem stats_overview_aggregation :
    (∀ locs : List Location,
      (statsOverview locs).total_locations = locs.length ∧
      (statsOverview locs).premium_locations = (locs.filter (fun l => l.is_premium)).length ∧
      (statsOverview locs).free_locations + (statsOverview locs).premium_locations =
        (statsOverview locs).total_locations ∧
      (statsOverview locs).categories.Sorted countGe ∧
      (∀ p ∈ (statsOverview locs).categories,
        p.2 = (locs.filter (fun l => l.category == p.1)).length) ∧
      (∀ c ∈ locs.map (fun l => l.category),
        (c, (locs.filter (fun l => l.category == c)).length) ∈ (statsOverview locs).categories) ∧
      (∀ l : Location, l.rating = 0 →
        (statsOverview (l :: locs)).average_rating = (statsOverview locs).average_rating)) ∧
    (statsOverview zeroRatingDemo).average_rating = 9/2 ∧
    (statsOverview zeroRatingDemo).average_rating ≠ 9/4 := by
  refine ⟨fun locs => ⟨rfl, rfl, ?_, ?_, ?_, ?_, ?_⟩, ?_, ?_⟩
  · exact Nat.sub_add_cancel (List.length_filter_le _ _)
  · exact List.sorted_insertionSort countGe _
  · intro p hp
    rw [show (statsOverview locs).categories = categoryCounts locs from rfl] at hp
    rw [categoryCounts, List.mem_insertionSort] at hp
    obtain ⟨c, _, hc⟩ := List.mem_map.mp hp
    rw [← hc]
  · intro c hc
    rw [show (statsOverview locs).categories = categoryCounts locs from rfl]
    rw [categoryCounts, List.mem_insertionSort]
    exact List.mem_map.mpr ⟨c, List.mem_dedup.mpr hc, rfl⟩
  · intro l hl
    simp [statsOverview, List.filter_cons, hl]
  · simp [statsOverview, zeroRatingDemo]
    norm_num
  · simp [statsOverview, zeroRatingDemo]
    norm_num

/-- Witness for C6: the hypothesised conjuncts instantiated on the demo
list — the count reported for "History" is the number of History rows. -/
theorem stats_overview_aggregation_witness :
    ("History", 2) ∈ (statsOverview zeroRatingDemo).categories ∧
    (("History", 2) : String × Nat).2 =
      (zeroRatingDemo.filter (fun l => l.category == "History")).length :=
  ⟨by decide,
   (stats_overview_aggregation.1 zeroRatingDemo).2.2.2.2.1 ("History", 2) (by decide)⟩

/-- Claim C8 counterexample: the stats route is not matched before the
by-id route. In the registration order of routes/locations.js the by-id
route (index 1) precedes the stats route (index 5), and a GET for the
single-segment path "stats" is in fact dispatched to the by-id handler,
which parses "stats" as an id. -/
theorem stats_route_order_counterexample :
    locationsRoutes.findIdx (fun r => r.handler == "getLocationById") <
      locationsRoutes.findIdx (fun r => r.handler == "statsOverview") ∧
    dispatch locationsRoutes "GET" ["stats"] = some "getLocationById" := by
  decide

/-- Claim C8 amended: every GET for the two-segment stats-overview path is
dispatched to the stats aggregation handler and never to the by-id
handler — not because the stats route is registered first (it is
registered after the by-id route), but because the single-segment `:id`
pattern cannot match the two-segment path. -/
theorem stats_path_dispatch :
    dispatch locationsRoutes "GET" ["stats", "overview"] = some "statsOverview" ∧
    matchSegs [.cap "id"] ["stats", "overview"] = false := by
  decide

/-- Claim C10 (implicit): when the `is_premium` query parameter is present
with value `v`, every returned location has its premium flag equal to the
strict string comparison `v === 'true'` — so `'true'` selects premium rows
and any other value (`'false'`, `'1'`, `'yes'`, `'TRUE'`, …) selects
non-premium rows. -/
theorem premium_filter_string_coercion
    (locs : List Location) (cat : Option String) (v : String) (lim off : Nat) :
    ∀ l ∈ getLocations locs
        { category := cat, is_premium := some v, limit := lim, offset := off },
      l.is_premium = (v == "true") := by
  intro l hl
  simp only [getLocations] at hl
  have h1 := List.mem_of_mem_take hl
  have h2 := List.mem_of_mem_drop h1
  rw [List.mem_insertionSort] at h2
  have h3 := (List.mem_filter.mp h2).2
  simpa using h3

/-- Two locations, one premium and one not, for the C10 witness. -/
def premiumDemo : List Location :=
  [ { id := 1, name := "free tour", category := "History", rating := 0, listeners := 0,
      is_premium := false, created_at := 1 },
    { id := 2, name := "premium tour", category := "History", rating := 4, listeners := 0,
      is_premium := true, created_at := 2 } ]

/-- Witness for C10: with `is_premium=TRUE` (which is not the string
`true`) the non-premium location is returned, and its flag equals
`"TRUE" == "true"`, i.e. `false`. -/
theorem premium_filter_string_coercion_witness :
    (premiumDemo.get ⟨0, by decide⟩) ∈ getLocations premiumDemo
        { category := none, is_premium := some "TRUE", limit := 50, offset := 0 } ∧
    (premiumDemo.get ⟨0, by decide⟩).is_premium = ("TRUE" == "true") :=
  ⟨by decide,
   premium_filter_string_coercion premiumDemo none "TRUE" 50 0
     (premiumDemo.get ⟨0, by decide⟩) (by decide)⟩

end AudioTours
